import Mathlib

/-!
Shallow embedding of the go-scc client library (package `scc`):
backup/restore, common connector properties and high-availability
master/shadow management facades over an externally supplied HTTP client.

Go conventions are mapped as follows: `*T` return values become `Option T`,
`error` becomes `Option String` (the error message), `(*T, *Response, error)`
becomes a triple.  The externally supplied client (its `NewRequest`,
`NewShadowRequest`, `NewUploadRequest` and `Do` methods are not part of this
repository) is an abstract record of behaviours; each facade operation
additionally returns the list of client calls it performed, in order, so that
properties about which collaborator methods run (and with which arguments)
can be stated.
-/

namespace Scc

/-- Go `context.Context`: only threaded through to `Do`, never inspected. -/
def Ctx : Type := Unit

instance : Inhabited Ctx := ⟨()⟩

/-- Result of `os.File.Stat()` that the code inspects: `IsDir()` and `Size()`. -/
structure FileStat where
  isDir : Bool
  size : Int
deriving DecidableEq, Repr

/-- Go `*os.File` as the code uses it: `Name()`, `Stat()`, and as an opaque
byte stream handed to the upload request / download destination. -/
structure FileHandle where
  name : String
  stat : Except String FileStat
deriving Repr

/-- The HTTP response; the facade code only ever reads `StatusCode`. -/
structure Response where
  StatusCode : Int
deriving DecidableEq, Repr

/-- CommonProperties.Ha, the anonymous `struct { Role string }` in Go. -/
structure CommonPropertiesHa where
  Role : String
deriving DecidableEq, Repr

structure CommonProperties where
  Ha : CommonPropertiesHa
  Description : String
deriving DecidableEq, Repr

/-- Go zero value, as produced by `new(CommonProperties)`. -/
def CommonProperties.zero : CommonProperties := ⟨⟨""⟩, ""⟩

structure Version where
  Version : String
deriving DecidableEq, Repr

def Version.zero : Scc.Version := ⟨""⟩

structure MasterConfiguration where
  HAEnabled : Bool
  AllowedShadowHost : String
deriving DecidableEq, Repr

def MasterConfiguration.zero : MasterConfiguration := ⟨false, ""⟩

structure MasterState where
  State : String
  ShadowHost : String
deriving DecidableEq, Repr

def MasterState.zero : MasterState := ⟨"", ""⟩

/-- The anonymous `struct { Href string }` inside ShadowConfiguration.Links. -/
structure Href where
  Href : String
deriving DecidableEq, Repr

/-- The anonymous `_links` struct of ShadowConfiguration. -/
structure ShadowLinks where
  Self : Href
  State : Href
deriving DecidableEq, Repr

def ShadowLinks.zero : ShadowLinks := ⟨⟨""⟩, ⟨""⟩⟩

structure ShadowConfiguration where
  MasterHost : String
  MasterPort : String
  CheckIntervalInSeconds : Int
  TakeoverDelayInSeconds : Int
  OwnHost : String
  ConnectTimeoutInMillis : Int
  RequestTimeoutInMillis : Int
  Links : ShadowLinks
deriving DecidableEq, Repr

def ShadowConfiguration.zero : ShadowConfiguration :=
  ⟨"", "", 0, 0, "", 0, 0, ShadowLinks.zero⟩

structure ShadowState where
  State : String
  OwnHosts : String
  StateMessage : String
  MasterVersions : String
deriving DecidableEq, Repr

def ShadowState.zero : ShadowState := ⟨"", "", "", ""⟩

/-- The body value handed to the request constructors, retaining the exact Go
value each call site passes (`nil`, a bare Go string, or one of the tagged
structs / anonymous structs appearing in the source). -/
inductive BodyArg
  | empty
  | goString (s : String)
  | passwordBody (password : String)
  | masterConfig (c : MasterConfiguration)
  | opBody (op : String)
  | shadowConfig (c : ShadowConfiguration)
  | shadowStateBody (op : String) (user : String) (password : String)
  | descriptionBody (description : String)
deriving DecidableEq, Repr

/-- JSON values, used to state what the body serializes to. -/
inductive JVal
  | str (s : String)
  | jbool (b : Bool)
  | num (n : Int)
  | obj (fields : List (String × JVal))
deriving Repr

/-- The wire payload of a request body: absent, a literal byte string, or a
JSON document. -/
inductive Payload
  | empty
  | raw (s : String)
  | json (j : JVal)
deriving Repr

/-- JSON encoding of MasterConfiguration per its field tags
(`haEnabled`, `allowedShadowHost`). -/
def MasterConfiguration.toJson (c : MasterConfiguration) : JVal :=
  .obj [("haEnabled", .jbool c.HAEnabled), ("allowedShadowHost", .str c.AllowedShadowHost)]

/-- JSON encoding of ShadowConfiguration per its field tags.  The `_links`
field carries `omitempty`, but Go's encoding/json never treats a struct value
as empty, so it is always emitted. -/
def ShadowConfiguration.toJson (c : ShadowConfiguration) : JVal :=
  .obj [("masterHost", .str c.MasterHost),
        ("masterPort", .str c.MasterPort),
        ("checkIntervalInSeconds", .num c.CheckIntervalInSeconds),
        ("takeoverDelayInSeconds", .num c.TakeoverDelayInSeconds),
        ("ownHost", .str c.OwnHost),
        ("connectTimeoutInMillis", .num c.ConnectTimeoutInMillis),
        ("requestTimeoutInMillis", .num c.RequestTimeoutInMillis),
        ("_links", .obj [("self", .obj [("href", .str c.Links.Self.Href)]),
                         ("state", .obj [("href", .str c.Links.State.Href)])])]

/-- Modelled from the spec: the body serialization performed by the external
client's request constructors (`NewRequest` / `NewShadowRequest`), whose code
is not under src/.  Per the spec ("Bodies are JSON except: HA role get/set
(raw string)"), a plain Go string body is sent literally, a nil body yields an
empty payload, and every struct body is JSON-encoded according to its field
tags. -/
def serializeBody : BodyArg → Payload
  | .empty => .empty
  | .goString s => .raw s
  | .passwordBody p => .json (.obj [("password", .str p)])
  | .masterConfig c => .json c.toJson
  | .opBody op => .json (.obj [("op", .str op)])
  | .shadowConfig c => .json c.toJson
  | .shadowStateBody op user password =>
      .json (.obj [("op", .str op), ("user", .str user), ("password", .str password)])
  | .descriptionBody d => .json (.obj [("description", .str d)])

/-- The request value produced by a successful builder call: it carries
exactly the arguments the facade supplied. -/
inductive Request
  | default (method : String) (path : String) (body : BodyArg)
  | shadow (method : String) (path : String) (body : BodyArg)
  | upload (method : String) (path : String) (f : FileHandle) (size : Int) (mediaType : String)
deriving Repr

/-- The destination value passed to `Do`: `nil` (body discarded), a
`bytes.Buffer`, an open file, or a pointer to one of the typed structs. -/
inductive Dest
  | discard
  | buffer
  | file (f : FileHandle)
  | commonProperties
  | version
  | masterConfig
  | masterState
  | shadowConfig
  | shadowState
deriving Repr

/-- What `Do` wrote into the destination on success. -/
inductive WrittenValue
  | bytes (s : String)
  | toFile (s : String)
  | commonProperties (v : CommonProperties)
  | version (v : Version)
  | masterConfig (v : MasterConfiguration)
  | masterState (v : MasterState)
  | shadowConfig (v : ShadowConfiguration)
  | shadowState (v : ShadowState)
deriving Repr

/-- Outcome of `Do`: on success a response (with its status code) together
with what was decoded into the destination, if anything; on failure an error,
possibly still accompanied by a response.  Modelled from the spec's
collaborator contract: "request execution yielding a status code plus a
decoded body (into a destination value, a byte buffer, or discarded)". -/
inductive DoResult
  | ok (resp : Response) (written : Option WrittenValue)
  | fail (resp : Option Response) (msg : String)
deriving Repr

/-- Modelled from the spec: the externally supplied HTTP client.  The request
constructors either fail with an error (e.g. malformed path) or succeed, in
which case the request carries exactly the supplied arguments; `Do` behaves
per `DoResult`. -/
structure Client where
  newRequestErr : String → String → BodyArg → Option String
  newShadowRequestErr : String → String → BodyArg → Option String
  newUploadRequestErr : String → String → FileHandle → Int → String → Option String
  doOutcome : Ctx → Request → Dest → DoResult

/-- One observed call to the collaborator, in program order. -/
inductive ClientCall
  | newRequest (method : String) (path : String) (body : BodyArg)
  | newShadowRequest (method : String) (path : String) (body : BodyArg)
  | newUploadRequest (method : String) (path : String) (f : FileHandle) (size : Int) (mediaType : String)
  | doCall (req : Request) (dest : Dest)
deriving Repr

/-- Whether a call is a request-building call through the default or upload
builder, i.e. NOT through `NewShadowRequest` and not an execution. -/
def ClientCall.isNonShadowBuild : ClientCall → Bool
  | .newRequest _ _ _ => true
  | .newUploadRequest _ _ _ _ _ => true
  | _ => false

/-- Whether a call is an execution (`Do`). -/
def ClientCall.isDo : ClientCall → Bool
  | .doCall _ _ => true
  | _ => false

/-- Go `strconv.Itoa` on the status code (decimal rendering). -/
def itoa (n : Int) : String := toString n

/-- Go `filepath.Ext`: the suffix beginning at the final dot in the final
path element; empty when there is no dot. -/
def extAux : List Char → List Char → String
  | [], _ => ""
  | ch :: rest, acc =>
      if ch = '/' then ""
      else if ch = '.' then String.mk (ch :: acc)
      else extAux rest (ch :: acc)

def filepathExt (path : String) : String := extAux path.data.reverse []

def takeBytes : Option WrittenValue → String
  | some (.bytes s) => s
  | _ => ""

def takeCommonProperties : Option WrittenValue → CommonProperties
  | some (.commonProperties v) => v
  | _ => CommonProperties.zero

def takeVersion : Option WrittenValue → Version
  | some (.version v) => v
  | _ => Version.zero

def takeMasterConfig : Option WrittenValue → MasterConfiguration
  | some (.masterConfig v) => v
  | _ => MasterConfiguration.zero

def takeMasterState : Option WrittenValue → MasterState
  | some (.masterState v) => v
  | _ => MasterState.zero

def takeShadowConfig : Option WrittenValue → ShadowConfiguration
  | some (.shadowConfig v) => v
  | _ => ShadowConfiguration.zero

def takeShadowState : Option WrittenValue → ShadowState
  | some (.shadowState v) => v
  | _ => ShadowState.zero

/-- BackupService.CreateBackup: POST the password (as a one-field JSON body)
to the backup path and stream the response into `file`. -/
def CreateBackup (c : Client) (ctx : Ctx) (password : String) (file : FileHandle) :
    (Option Response × Option String) × List ClientCall :=
  let body := BodyArg.passwordBody password
  let build := ClientCall.newRequest "POST" "api/v1/configuration/backup" body
  match c.newRequestErr "POST" "api/v1/configuration/backup" body with
  | some e => ((none, some e), [build])
  | none =>
    let req := Request.default "POST" "api/v1/configuration/backup" body
    let calls := [build, ClientCall.doCall req (.file file)]
    match c.doOutcome ctx req (.file file) with
    | .fail r e => ((r, some e), calls)
    | .ok resp _ => ((some resp, none), calls)

/-- BackupService.RestoreBackup: stat the file, refuse directories, derive the
media type from the file extension (`mime` models Go's stdlib
`mime.TypeByExtension`), issue a raw upload PUT and require status 204. -/
def RestoreBackup (mime : String → String) (c : Client) (ctx : Ctx)
    (password : String) (file : FileHandle) :
    (Option Response × Option String) × List ClientCall :=
  match file.stat with
  | .error e => ((none, some e), [])
  | .ok stat =>
    if stat.isDir then
      ((none, some "the asset to upload can't be a directory"), [])
    else
      let mediaType := mime (filepathExt file.name)
      let build := ClientCall.newUploadRequest "PUT" "api/v1/configuration/backup" file stat.size mediaType
      match c.newUploadRequestErr "PUT" "api/v1/configuration/backup" file stat.size mediaType with
      | some e => ((none, some e), [build])
      | none =>
        let req := Request.upload "PUT" "api/v1/configuration/backup" file stat.size mediaType
        let calls := [build, ClientCall.doCall req .discard]
        match c.doOutcome ctx req .discard with
        | .fail r e => ((r, some e), calls)
        | .ok resp _ =>
          if resp.StatusCode ≠ 204 then
            ((some resp, some ("backup restore failed with status code " ++ itoa resp.StatusCode)), calls)
          else
            ((some resp, none), calls)

/-- CommonService.GetCommonProperties. -/
def GetCommonProperties (c : Client) (ctx : Ctx) :
    (Option CommonProperties × Option Response × Option String) × List ClientCall :=
  let build := ClientCall.newRequest "GET" "api/v1/configuration/connector" .empty
  match c.newRequestErr "GET" "api/v1/configuration/connector" .empty with
  | some e => ((none, none, some e), [build])
  | none =>
    let req := Request.default "GET" "api/v1/configuration/connector" .empty
    let calls := [build, ClientCall.doCall req .commonProperties]
    match c.doOutcome ctx req .commonProperties with
    | .fail r e => ((none, r, some e), calls)
    | .ok resp w => ((some (takeCommonProperties w), some resp, none), calls)

/-- CommonService.GetVersion. -/
def GetVersion (c : Client) (ctx : Ctx) :
    (Option Scc.Version × Option Response × Option String) × List ClientCall :=
  let build := ClientCall.newRequest "GET" "api/v1/connector/version" .empty
  match c.newRequestErr "GET" "api/v1/connector/version" .empty with
  | some e => ((none, none, some e), [build])
  | none =>
    let req := Request.default "GET" "api/v1/connector/version" .empty
    let calls := [build, ClientCall.doCall req .version]
    match c.doOutcome ctx req .version with
    | .fail r e => ((none, r, some e), calls)
    | .ok resp w => ((some (takeVersion w), some resp, none), calls)

/-- CommonService.SetDescription: PUT a one-field `description` body and
decode the response into a fresh CommonProperties value. -/
def SetDescription (c : Client) (ctx : Ctx) (description : String) :
    (Option CommonProperties × Option Response × Option String) × List ClientCall :=
  let body := BodyArg.descriptionBody description
  let build := ClientCall.newRequest "PUT" "api/v1/configuration/connector" body
  match c.newRequestErr "PUT" "api/v1/configuration/connector" body with
  | some e => ((none, none, some e), [build])
  | none =>
    let req := Request.default "PUT" "api/v1/configuration/connector" body
    let calls := [build, ClientCall.doCall req .commonProperties]
    match c.doOutcome ctx req .commonProperties with
    | .fail r e => ((none, r, some e), calls)
    | .ok resp w => ((some (takeCommonProperties w), some resp, none), calls)

/-- HAService.GetHASettings: GET the HA role, reading the raw response bytes
into a `bytes.Buffer` and returning them as a string. -/
def GetHASettings (c : Client) (ctx : Ctx) :
    (String × Option Response × Option String) × List ClientCall :=
  let build := ClientCall.newRequest "GET" "api/v1/configuration/connector/haRole" .empty
  match c.newRequestErr "GET" "api/v1/configuration/connector/haRole" .empty with
  | some e => (("", none, some e), [build])
  | none =>
    let req := Request.default "GET" "api/v1/configuration/connector/haRole" .empty
    let calls := [build, ClientCall.doCall req .buffer]
    match c.doOutcome ctx req .buffer with
    | .fail r e => (("", r, some e), calls)
    | .ok resp w => ((takeBytes w, some resp, none), calls)

/-- HAService.SetHASettings: POST the role, passed to NewRequest as a bare Go
string. -/
def SetHASettings (c : Client) (ctx : Ctx) (role : String) :
    (Option Response × Option String) × List ClientCall :=
  let body := BodyArg.goString role
  let build := ClientCall.newRequest "POST" "api/v1/configuration/connector/haRole" body
  match c.newRequestErr "POST" "api/v1/configuration/connector/haRole" body with
  | some e => ((none, some e), [build])
  | none =>
    let req := Request.default "POST" "api/v1/configuration/connector/haRole" body
    let calls := [build, ClientCall.doCall req .discard]
    match c.doOutcome ctx req .discard with
    | .fail r e => ((r, some e), calls)
    | .ok resp _ => ((some resp, none), calls)

/-- HAService.GetMasterConfiguration. -/
def GetMasterConfiguration (c : Client) (ctx : Ctx) :
    (Option MasterConfiguration × Option Response × Option String) × List ClientCall :=
  let build := ClientCall.newRequest "GET" "api/v1/configuration/connector/ha/master/config" .empty
  match c.newRequestErr "GET" "api/v1/configuration/connector/ha/master/config" .empty with
  | some e => ((none, none, some e), [build])
  | none =>
    let req := Request.default "GET" "api/v1/configuration/connector/ha/master/config" .empty
    let calls := [build, ClientCall.doCall req .masterConfig]
    match c.doOutcome ctx req .masterConfig with
    | .fail r e => ((none, r, some e), calls)
    | .ok resp w => ((some (takeMasterConfig w), some resp, none), calls)

/-- HAService.SetMasterConfiguration: PUT the MasterConfiguration built from
the two arguments, decoding the response into a fresh value. -/
def SetMasterConfiguration (c : Client) (ctx : Ctx) (haEnabled : Bool) (allowedShadowHost : String) :
    (Option MasterConfiguration × Option Response × Option String) × List ClientCall :=
  let body := BodyArg.masterConfig ⟨haEnabled, allowedShadowHost⟩
  let build := ClientCall.newRequest "PUT" "api/v1/configuration/connector/ha/master/config" body
  match c.newRequestErr "PUT" "api/v1/configuration/connector/ha/master/config" body with
  | some e => ((none, none, some e), [build])
  | none =>
    let req := Request.default "PUT" "api/v1/configuration/connector/ha/master/config" body
    let calls := [build, ClientCall.doCall req .masterConfig]
    match c.doOutcome ctx req .masterConfig with
    | .fail r e => ((none, r, some e), calls)
    | .ok resp w => ((some (takeMasterConfig w), some resp, none), calls)

/-- HAService.GetMasterState. -/
def GetMasterState (c : Client) (ctx : Ctx) :
    (Option MasterState × Option Response × Option String) × List ClientCall :=
  let build := ClientCall.newRequest "GET" "api/v1/configuration/connector/ha/master/state" .empty
  match c.newRequestErr "GET" "api/v1/configuration/connector/ha/master/state" .empty with
  | some e => ((none, none, some e), [build])
  | none =>
    let req := Request.default "GET" "api/v1/configuration/connector/ha/master/state" .empty
    let calls := [build, ClientCall.doCall req .masterState]
    match c.doOutcome ctx req .masterState with
    | .fail r e => ((none, r, some e), calls)
    | .ok resp w => ((some (takeMasterState w), some resp, none), calls)

/-- HAService.SetMasterState: POST a one-field `op` body. -/
def SetMasterState (c : Client) (ctx : Ctx) (op : String) :
    (Option MasterState × Option Response × Option String) × List ClientCall :=
  let body := BodyArg.opBody op
  let build := ClientCall.newRequest "POST" "api/v1/configuration/connector/ha/master/state" body
  match c.newRequestErr "POST" "api/v1/configuration/connector/ha/master/state" body with
  | some e => ((none, none, some e), [build])
  | none =>
    let req := Request.default "POST" "api/v1/configuration/connector/ha/master/state" body
    let calls := [build, ClientCall.doCall req .masterState]
    match c.doOutcome ctx req .masterState with
    | .fail r e => ((none, r, some e), calls)
    | .ok resp w => ((some (takeMasterState w), some resp, none), calls)

/-- HAService.ResetMaster: DELETE the master state; requires status 204. -/
def ResetMaster (c : Client) (ctx : Ctx) :
    (Option Response × Option String) × List ClientCall :=
  let build := ClientCall.newRequest "DELETE" "api/v1/configuration/connector/ha/master/state" .empty
  match c.newRequestErr "DELETE" "api/v1/configuration/connector/ha/master/state" .empty with
  | some e => ((none, some e), [build])
  | none =>
    let req := Request.default "DELETE" "api/v1/configuration/connector/ha/master/state" .empty
    let calls := [build, ClientCall.doCall req .discard]
    match c.doOutcome ctx req .discard with
    | .fail r e => ((r, some e), calls)
    | .ok resp _ =>
      if resp.StatusCode ≠ 204 then
        ((some resp, some ("master reset failed with status code " ++ itoa resp.StatusCode)), calls)
      else
        ((some resp, none), calls)

/-- HAService.GetShadowConfiguration (built through NewShadowRequest). -/
def GetShadowConfiguration (c : Client) (ctx : Ctx) :
    (Option ShadowConfiguration × Option Response × Option String) × List ClientCall :=
  let build := ClientCall.newShadowRequest "GET" "api/v1/configuration/connector/ha/shadow/config" .empty
  match c.newShadowRequestErr "GET" "api/v1/configuration/connector/ha/shadow/config" .empty with
  | some e => ((none, none, some e), [build])
  | none =>
    let req := Request.shadow "GET" "api/v1/configuration/connector/ha/shadow/config" .empty
    let calls := [build, ClientCall.doCall req .shadowConfig]
    match c.doOutcome ctx req .shadowConfig with
    | .fail r e => ((none, r, some e), calls)
    | .ok resp w => ((some (takeShadowConfig w), some resp, none), calls)

/-- HAService.SetShadowConfiguration: PUT the ShadowConfiguration built from
the arguments (Links left at its zero value), through NewShadowRequest. -/
def SetShadowConfiguration (c : Client) (ctx : Ctx)
    (masterHost masterPort ownHost : String)
    (checkIntervalInSeconds takeoverDelayInSeconds connectTimeoutInMillis requestTimeoutInMillis : Int) :
    (Option ShadowConfiguration × Option Response × Option String) × List ClientCall :=
  let body := BodyArg.shadowConfig
    ⟨masterHost, masterPort, checkIntervalInSeconds, takeoverDelayInSeconds,
     ownHost, connectTimeoutInMillis, requestTimeoutInMillis, ShadowLinks.zero⟩
  let build := ClientCall.newShadowRequest "PUT" "api/v1/configuration/connector/ha/shadow/config" body
  match c.newShadowRequestErr "PUT" "api/v1/configuration/connector/ha/shadow/config" body with
  | some e => ((none, none, some e), [build])
  | none =>
    let req := Request.shadow "PUT" "api/v1/configuration/connector/ha/shadow/config" body
    let calls := [build, ClientCall.doCall req .shadowConfig]
    match c.doOutcome ctx req .shadowConfig with
    | .fail r e => ((none, r, some e), calls)
    | .ok resp w => ((some (takeShadowConfig w), some resp, none), calls)

/-- HAService.GetShawodState (sic): GET the shadow state through
NewShadowRequest; the `description` parameter is unused. -/
def GetShawodState (c : Client) (ctx : Ctx) (description : String) :
    (Option ShadowState × Option Response × Option String) × List ClientCall :=
  let build := ClientCall.newShadowRequest "GET" "api/v1/configuration/connector/ha/shadow/state" .empty
  match c.newShadowRequestErr "GET" "api/v1/configuration/connector/ha/shadow/state" .empty with
  | some e => ((none, none, some e), [build])
  | none =>
    let req := Request.shadow "GET" "api/v1/configuration/connector/ha/shadow/state" .empty
    let calls := [build, ClientCall.doCall req .shadowState]
    match c.doOutcome ctx req .shadowState with
    | .fail r e => ((none, r, some e), calls)
    | .ok resp w => ((some (takeShadowState w), some resp, none), calls)

/-- HAService.ChangeShadowState: POST `op`, `user`, `password` through
NewShadowRequest; requires status 204. -/
def ChangeShadowState (c : Client) (ctx : Ctx) (op user password : String) :
    (Option Response × Option String) × List ClientCall :=
  let body := BodyArg.shadowStateBody op user password
  let build := ClientCall.newShadowRequest "POST" "api/v1/configuration/connector/ha/shadow/state" body
  match c.newShadowRequestErr "POST" "api/v1/configuration/connector/ha/shadow/state" body with
  | some e => ((none, some e), [build])
  | none =>
    let req := Request.shadow "POST" "api/v1/configuration/connector/ha/shadow/state" body
    let calls := [build, ClientCall.doCall req .discard]
    match c.doOutcome ctx req .discard with
    | .fail r e => ((r, some e), calls)
    | .ok resp _ =>
      if resp.StatusCode ≠ 204 then
        ((some resp, some ("shadow reset failed with status code " ++ itoa resp.StatusCode)), calls)
      else
        ((some resp, none), calls)

/-- HAService.ResetShadow: DELETE the shadow state through NewShadowRequest;
requires status 204. -/
def ResetShadow (c : Client) (ctx : Ctx) :
    (Option Response × Option String) × List ClientCall :=
  let build := ClientCall.newShadowRequest "DELETE" "api/v1/configuration/connector/ha/shadow/state" .empty
  match c.newShadowRequestErr "DELETE" "api/v1/configuration/connector/ha/shadow/state" .empty with
  | some e => ((none, some e), [build])
  | none =>
    let req := Request.shadow "DELETE" "api/v1/configuration/connector/ha/shadow/state" .empty
    let calls := [build, ClientCall.doCall req .discard]
    match c.doOutcome ctx req .discard with
    | .fail r e => ((r, some e), calls)
    | .ok resp _ =>
      if resp.StatusCode ≠ 204 then
        ((some resp, some ("shadow reset failed with status code " ++ itoa resp.StatusCode)), calls)
      else
        ((some resp, none), calls)

/-- Substring containment, used to state that an error message contains the
rendered status code. -/
def strContains (s sub : String) : Prop := ∃ pre post, s = pre ++ sub ++ post

/-- A client stub whose builders always succeed and whose `Do` always yields
a response with the given status code, writing nothing. -/
def allOkClient (code : Int) : Client where
  newRequestErr := fun _ _ _ => none
  newShadowRequestErr := fun _ _ _ => none
  newUploadRequestErr := fun _ _ _ _ _ => none
  doOutcome := fun _ _ _ => .ok ⟨code⟩ none

/-- A client stub whose builders always fail with the given error and whose
`Do` never succeeds (it is never reached in the properties below). -/
def allFailBuildClient (e : String) : Client where
  newRequestErr := fun _ _ _ => some e
  newShadowRequestErr := fun _ _ _ => some e
  newUploadRequestErr := fun _ _ _ _ _ => some e
  doOutcome := fun _ _ _ => .fail none "unreachable"

/-- A concrete ordinary file handle for witnesses. -/
def plainFile : FileHandle := ⟨"backup.zip", .ok ⟨false, 10⟩⟩

/-- A concrete directory handle for witnesses. -/
def dirFile : FileHandle := ⟨"somedir", .ok ⟨true, 0⟩⟩

end Scc

namespace Scc

/-- C3: RestoreBackup ignores its password parameter entirely — for any two
passwords and the same file, it produces identical results and performs the
identical sequence of client calls (in particular, the identical upload
request), so the password is never transmitted. -/
theorem restoreBackup_independent_of_password
    (mime : String → String) (c : Client) (ctx : Ctx) (p1 p2 : String) (file : FileHandle) :
    RestoreBackup mime c ctx p1 file = RestoreBackup mime c ctx p2 file := rfl

/-- C4: when the file's stat reports a directory, RestoreBackup returns a nil
response and a non-nil error, and performs no client call at all: neither
NewUploadRequest nor Do runs. -/
theorem restoreBackup_directory_fails_early
    (mime : String → String) (c : Client) (ctx : Ctx) (password : String)
    (file : FileHandle) (st : FileStat)
    (hstat : file.stat = .ok st) (hdir : st.isDir = true) :
    RestoreBackup mime c ctx password file =
      ((none, some "the asset to upload can't be a directory"), []) := by
  simp [RestoreBackup, hstat, hdir]

theorem restoreBackup_directory_fails_early_witness :
    dirFile.stat = .ok ⟨true, 0⟩ ∧ (⟨true, 0⟩ : FileStat).isDir = true ∧
    RestoreBackup (fun _ => "") (allOkClient 204) () "pw" dirFile =
      ((none, some "the asset to upload can't be a directory"), []) :=
  ⟨rfl, rfl,
    restoreBackup_directory_fails_early (fun _ => "") (allOkClient 204) () "pw" dirFile
      ⟨true, 0⟩ rfl rfl⟩

/-- C9: CreateBackup performs no status-code check: whenever request
construction succeeds and execution succeeds with a response of any status
code, CreateBackup returns that response with a nil error. -/
theorem createBackup_no_status_check
    (c : Client) (ctx : Ctx) (password : String) (file : FileHandle)
    (resp : Response) (w : Option WrittenValue)
    (hbuild : c.newRequestErr "POST" "api/v1/configuration/backup" (.passwordBody password) = none)
    (hdo : c.doOutcome ctx (.default "POST" "api/v1/configuration/backup" (.passwordBody password))
      (.file file) = .ok resp w) :
    (CreateBackup c ctx password file).1 = (some resp, none) := by
  simp [CreateBackup, hbuild, hdo]

theorem createBackup_no_status_check_witness :
    (allOkClient 500).newRequestErr "POST" "api/v1/configuration/backup" (.passwordBody "pw") = none ∧
    (allOkClient 500).doOutcome ()
      (.default "POST" "api/v1/configuration/backup" (.passwordBody "pw")) (.file plainFile) =
      .ok ⟨500⟩ none ∧
    (CreateBackup (allOkClient 500) () "pw" plainFile).1 = (some ⟨500⟩, none) :=
  ⟨rfl, rfl, createBackup_no_status_check (allOkClient 500) () "pw" plainFile ⟨500⟩ none rfl rfl⟩

/-- C2: SetHASettings hands the role to NewRequest as a bare Go string, and
the client's serialization sends a Go string body literally, so the wire body
is the role itself and in particular is never a JSON document. -/
theorem setHASettings_sends_literal_role (c : Client) (ctx : Ctx) (role : String) :
    (SetHASettings c ctx role).2.head? =
      some (.newRequest "POST" "api/v1/configuration/connector/haRole" (.goString role)) ∧
    serializeBody (.goString role) = Payload.raw role ∧
    ∀ j : JVal, Payload.raw role ≠ Payload.json j := by
  refine ⟨?_, rfl, fun j hj => Payload.noConfusion hj⟩
  simp only [SetHASettings]
  split
  · simp
  · split <;> simp

/-- C5: every shadow-side operation builds its request through
NewShadowRequest (the first client call is a shadow build) and performs no
call through the default or upload builders. -/
theorem shadow_ops_use_shadow_builder (c : Client) (ctx : Ctx)
    (masterHost masterPort ownHost description op user password : String)
    (ci td ct rt : Int) :
    ((GetShadowConfiguration c ctx).2.head? =
        some (.newShadowRequest "GET" "api/v1/configuration/connector/ha/shadow/config" .empty) ∧
      (GetShadowConfiguration c ctx).2.all (fun cc => !cc.isNonShadowBuild) = true) ∧
    ((SetShadowConfiguration c ctx masterHost masterPort ownHost ci td ct rt).2.head? =
        some (.newShadowRequest "PUT" "api/v1/configuration/connector/ha/shadow/config"
          (.shadowConfig ⟨masterHost, masterPort, ci, td, ownHost, ct, rt, ShadowLinks.zero⟩)) ∧
      (SetShadowConfiguration c ctx masterHost masterPort ownHost ci td ct rt).2.all
        (fun cc => !cc.isNonShadowBuild) = true) ∧
    ((GetShawodState c ctx description).2.head? =
        some (.newShadowRequest "GET" "api/v1/configuration/connector/ha/shadow/state" .empty) ∧
      (GetShawodState c ctx description).2.all (fun cc => !cc.isNonShadowBuild) = true) ∧
    ((ChangeShadowState c ctx op user password).2.head? =
        some (.newShadowRequest "POST" "api/v1/configuration/connector/ha/shadow/state"
          (.shadowStateBody op user password)) ∧
      (ChangeShadowState c ctx op user password).2.all (fun cc => !cc.isNonShadowBuild) = true) ∧
    ((ResetShadow c ctx).2.head? =
        some (.newShadowRequest "DELETE" "api/v1/configuration/connector/ha/shadow/state" .empty) ∧
      (ResetShadow c ctx).2.all (fun cc => !cc.isNonShadowBuild) = true) := by
  refine ⟨⟨?_, ?_⟩, ⟨?_, ?_⟩, ⟨?_, ?_⟩, ⟨?_, ?_⟩, ⟨?_, ?_⟩⟩
  all_goals
    simp only [GetShadowConfiguration, SetShadowConfiguration, GetShawodState,
      ChangeShadowState, ResetShadow]
  all_goals
    split
    · simp [ClientCall.isNonShadowBuild]
    · split
      · first
        | (split <;> simp [ClientCall.isNonShadowBuild])
        | simp [ClientCall.isNonShadowBuild]
      · first
        | (split <;> simp [ClientCall.isNonShadowBuild])
        | simp [ClientCall.isNonShadowBuild]

/-- C6: GetHASettings reads the response through a raw byte buffer (the `Do`
destination is the buffer, not a typed decode target) and returns exactly the
bytes the execution wrote into it, unchanged. -/
theorem getHASettings_returns_raw_body (c : Client) (ctx : Ctx)
    (resp : Response) (body : String)
    (hbuild : c.newRequestErr "GET" "api/v1/configuration/connector/haRole" .empty = none)
    (hdo : c.doOutcome ctx (.default "GET" "api/v1/configuration/connector/haRole" .empty) .buffer =
      .ok resp (some (.bytes body))) :
    (GetHASettings c ctx).1 = (body, some resp, none) := by
  simp [GetHASettings, hbuild, hdo, takeBytes]

/-- A client stub whose `Do` writes the given raw bytes, for the C6 witness. -/
def rawBodyClient (body : String) : Client where
  newRequestErr := fun _ _ _ => none
  newShadowRequestErr := fun _ _ _ => none
  newUploadRequestErr := fun _ _ _ _ _ => none
  doOutcome := fun _ _ _ => .ok ⟨200⟩ (some (.bytes body))

theorem getHASettings_returns_raw_body_witness :
    (rawBodyClient "shadow").newRequestErr "GET" "api/v1/configuration/connector/haRole" .empty = none ∧
    (rawBodyClient "shadow").doOutcome ()
      (.default "GET" "api/v1/configuration/connector/haRole" .empty) .buffer =
      .ok ⟨200⟩ (some (.bytes "shadow")) ∧
    (GetHASettings (rawBodyClient "shadow") ()).1 = ("shadow", some ⟨200⟩, none) :=
  ⟨rfl, rfl, getHASettings_returns_raw_body (rawBodyClient "shadow") () ⟨200⟩ "shadow" rfl rfl⟩

/-- C7: SetDescription issues a PUT whose body is the one-field description
struct, which serializes to the JSON object with single key "description"
mapped to the given string, and on success returns the CommonProperties value
the execution decoded, so its Description field is the server's. -/
theorem setDescription_body_and_decode (c : Client) (ctx : Ctx) (d : String)
    (resp : Response) (v : CommonProperties)
    (hbuild : c.newRequestErr "PUT" "api/v1/configuration/connector" (.descriptionBody d) = none)
    (hdo : c.doOutcome ctx (.default "PUT" "api/v1/configuration/connector" (.descriptionBody d))
      .commonProperties = .ok resp (some (.commonProperties v))) :
    (SetDescription c ctx d).2.head? =
      some (.newRequest "PUT" "api/v1/configuration/connector" (.descriptionBody d)) ∧
    serializeBody (.descriptionBody d) = .json (.obj [("description", .str d)]) ∧
    (SetDescription c ctx d).1 = (some v, some resp, none) := by
  refine ⟨?_, rfl, ?_⟩ <;> simp [SetDescription, hbuild, hdo, takeCommonProperties]

/-- A client stub whose `Do` decodes the given CommonProperties value, for
the C7 witness. -/
def cpClient (v : CommonProperties) : Client where
  newRequestErr := fun _ _ _ => none
  newShadowRequestErr := fun _ _ _ => none
  newUploadRequestErr := fun _ _ _ _ _ => none
  doOutcome := fun _ _ _ => .ok ⟨200⟩ (some (.commonProperties v))

theorem setDescription_body_and_decode_witness :
    (cpClient ⟨⟨"master"⟩, "x"⟩).newRequestErr "PUT" "api/v1/configuration/connector"
      (.descriptionBody "x") = none ∧
    (cpClient ⟨⟨"master"⟩, "x"⟩).doOutcome ()
      (.default "PUT" "api/v1/configuration/connector" (.descriptionBody "x")) .commonProperties =
      .ok ⟨200⟩ (some (.commonProperties ⟨⟨"master"⟩, "x"⟩)) ∧
    (SetDescription (cpClient ⟨⟨"master"⟩, "x"⟩) () "x").1 =
      (some ⟨⟨"master"⟩, "x"⟩, some ⟨200⟩, none) :=
  ⟨rfl, rfl,
    (setDescription_body_and_decode (cpClient ⟨⟨"master"⟩, "x"⟩) () "x" ⟨200⟩
      ⟨⟨"master"⟩, "x"⟩ rfl rfl).2.2⟩

/-- A client stub modelling a server that stored the given master
configuration and echoes it back on read, for C8. -/
def echoMasterConfigClient (stored : MasterConfiguration) : Client where
  newRequestErr := fun _ _ _ => none
  newShadowRequestErr := fun _ _ _ => none
  newUploadRequestErr := fun _ _ _ _ _ => none
  doOutcome := fun _ _ _ => .ok ⟨200⟩ (some (.masterConfig stored))

/-- C8: SetMasterConfiguration sends exactly the two-field master
configuration (serialized as the JSON object with keys haEnabled and
allowedShadowHost), and GetMasterConfiguration against a server echoing the
stored value returns a MasterConfiguration with the same two fields. -/
theorem masterConfiguration_roundtrip (c : Client) (ctx : Ctx) (b : Bool) (h : String) :
    (SetMasterConfiguration c ctx b h).2.head? =
      some (.newRequest "PUT" "api/v1/configuration/connector/ha/master/config"
        (.masterConfig ⟨b, h⟩)) ∧
    serializeBody (.masterConfig ⟨b, h⟩) =
      .json (.obj [("haEnabled", .jbool b), ("allowedShadowHost", .str h)]) ∧
    ∃ mc : MasterConfiguration,
      (GetMasterConfiguration (echoMasterConfigClient ⟨b, h⟩) ctx).1.1 = some mc ∧
      mc.HAEnabled = b ∧ mc.AllowedShadowHost = h := by
  refine ⟨?_, rfl, ⟨b, h⟩, ?_, rfl, rfl⟩
  · simp only [SetMasterConfiguration]
    split
    · simp
    · split <;> simp
  · simp [GetMasterConfiguration, echoMasterConfigClient, takeMasterConfig]

/-- C1: every operation that mandates status 204 (RestoreBackup, ResetMaster,
ResetShadow, ChangeShadowState), given a successfully built and executed
request: a 204 response yields a nil error, any other status yields a non-nil
error whose message contains the decimal rendering of the status code, and in
both cases the (non-nil) response is returned. -/
theorem fixed_status_ops_require_204
    (mime : String → String) (c : Client) (ctx : Ctx)
    (password op user pw : String) (file : FileHandle) (st : FileStat)
    (resp : Response) (w1 w2 w3 w4 : Option WrittenValue)
    (hstat : file.stat = .ok st) (hdir : st.isDir = false)
    (hb1 : c.newUploadRequestErr "PUT" "api/v1/configuration/backup" file st.size
      (mime (filepathExt file.name)) = none)
    (hd1 : c.doOutcome ctx (.upload "PUT" "api/v1/configuration/backup" file st.size
      (mime (filepathExt file.name))) .discard = .ok resp w1)
    (hb2 : c.newRequestErr "DELETE" "api/v1/configuration/connector/ha/master/state" .empty = none)
    (hd2 : c.doOutcome ctx
      (.default "DELETE" "api/v1/configuration/connector/ha/master/state" .empty) .discard =
      .ok resp w2)
    (hb3 : c.newShadowRequestErr "DELETE" "api/v1/configuration/connector/ha/shadow/state" .empty = none)
    (hd3 : c.doOutcome ctx
      (.shadow "DELETE" "api/v1/configuration/connector/ha/shadow/state" .empty) .discard =
      .ok resp w3)
    (hb4 : c.newShadowRequestErr "POST" "api/v1/configuration/connector/ha/shadow/state"
      (.shadowStateBody op user pw) = none)
    (hd4 : c.doOutcome ctx (.shadow "POST" "api/v1/configuration/connector/ha/shadow/state"
      (.shadowStateBody op user pw)) .discard = .ok resp w4) :
    (resp.StatusCode = 204 →
      (RestoreBackup mime c ctx password file).1 = (some resp, none) ∧
      (ResetMaster c ctx).1 = (some resp, none) ∧
      (ResetShadow c ctx).1 = (some resp, none) ∧
      (ChangeShadowState c ctx op user pw).1 = (some resp, none)) ∧
    (resp.StatusCode ≠ 204 →
      (∃ msg, (RestoreBackup mime c ctx password file).1 = (some resp, some msg) ∧
        strContains msg (itoa resp.StatusCode)) ∧
      (∃ msg, (ResetMaster c ctx).1 = (some resp, some msg) ∧
        strContains msg (itoa resp.StatusCode)) ∧
      (∃ msg, (ResetShadow c ctx).1 = (some resp, some msg) ∧
        strContains msg (itoa resp.StatusCode)) ∧
      (∃ msg, (ChangeShadowState c ctx op user pw).1 = (some resp, some msg) ∧
        strContains msg (itoa resp.StatusCode))) := by
  constructor
  · intro h204
    refine ⟨?_, ?_, ?_, ?_⟩
    · simp [RestoreBackup, hstat, hdir, hb1, hd1, h204]
    · simp [ResetMaster, hb2, hd2, h204]
    · simp [ResetShadow, hb3, hd3, h204]
    · simp [ChangeShadowState, hb4, hd4, h204]
  · intro hne
    refine ⟨?_, ?_, ?_, ?_⟩
    · exact ⟨"backup restore failed with status code " ++ itoa resp.StatusCode,
        by simp [RestoreBackup, hstat, hdir, hb1, hd1, hne],
        "backup restore failed with status code ", "", by simp⟩
    · exact ⟨"master reset failed with status code " ++ itoa resp.StatusCode,
        by simp [ResetMaster, hb2, hd2, hne],
        "master reset failed with status code ", "", by simp⟩
    · exact ⟨"shadow reset failed with status code " ++ itoa resp.StatusCode,
        by simp [ResetShadow, hb3, hd3, hne],
        "shadow reset failed with status code ", "", by simp⟩
    · exact ⟨"shadow reset failed with status code " ++ itoa resp.StatusCode,
        by simp [ChangeShadowState, hb4, hd4, hne],
        "shadow reset failed with status code ", "", by simp⟩

theorem fixed_status_ops_require_204_witness :
    plainFile.stat = .ok ⟨false, 10⟩ ∧
    ((⟨500⟩ : Response).StatusCode ≠ 204) ∧
    ((∃ msg, (RestoreBackup (fun _ => "application/zip") (allOkClient 500) () "pw" plainFile).1 =
        (some ⟨500⟩, some msg) ∧ strContains msg (itoa 500)) ∧
     (∃ msg, (ResetMaster (allOkClient 500) ()).1 = (some ⟨500⟩, some msg) ∧
        strContains msg (itoa 500)) ∧
     (∃ msg, (ResetShadow (allOkClient 500) ()).1 = (some ⟨500⟩, some msg) ∧
        strContains msg (itoa 500)) ∧
     (∃ msg, (ChangeShadowState (allOkClient 500) () "CONNECT" "u" "p").1 =
        (some ⟨500⟩, some msg) ∧ strContains msg (itoa 500))) :=
  ⟨rfl, by decide,
    (fixed_status_ops_require_204 (fun _ => "application/zip") (allOkClient 500) ()
      "pw" "CONNECT" "u" "p" plainFile ⟨false, 10⟩ ⟨500⟩ none none none none
      rfl rfl rfl rfl rfl rfl rfl rfl rfl rfl).2 (by decide)⟩

/-- C10: whenever a request builder fails, every operation returns that very
error with a nil response (and a nil decoded value where one is returned),
having performed exactly the one failed build call — `Do` never runs. -/
theorem builder_failure_uniform
    (mime : String → String) (c : Client) (ctx : Ctx) (e : String)
    (password role d op user pw mh mp oh : String) (b : Bool)
    (ci td ct rt : Int) (file : FileHandle) (st : FileStat)
    (hstat : file.stat = .ok st) (hdir : st.isDir = false)
    (hNR : ∀ m p bd, c.newRequestErr m p bd = some e)
    (hNS : ∀ m p bd, c.newShadowRequestErr m p bd = some e)
    (hNU : ∀ m p f sz mt, c.newUploadRequestErr m p f sz mt = some e) :
    CreateBackup c ctx password file =
      ((none, some e), [.newRequest "POST" "api/v1/configuration/backup" (.passwordBody password)]) ∧
    RestoreBackup mime c ctx password file =
      ((none, some e), [.newUploadRequest "PUT" "api/v1/configuration/backup" file st.size
        (mime (filepathExt file.name))]) ∧
    GetCommonProperties c ctx =
      ((none, none, some e), [.newRequest "GET" "api/v1/configuration/connector" .empty]) ∧
    GetVersion c ctx =
      ((none, none, some e), [.newRequest "GET" "api/v1/connector/version" .empty]) ∧
    SetDescription c ctx d =
      ((none, none, some e), [.newRequest "PUT" "api/v1/configuration/connector" (.descriptionBody d)]) ∧
    GetHASettings c ctx =
      (("", none, some e), [.newRequest "GET" "api/v1/configuration/connector/haRole" .empty]) ∧
    SetHASettings c ctx role =
      ((none, some e), [.newRequest "POST" "api/v1/configuration/connector/haRole" (.goString role)]) ∧
    GetMasterConfiguration c ctx =
      ((none, none, some e), [.newRequest "GET" "api/v1/configuration/connector/ha/master/config" .empty]) ∧
    SetMasterConfiguration c ctx b oh =
      ((none, none, some e), [.newRequest "PUT" "api/v1/configuration/connector/ha/master/config"
        (.masterConfig ⟨b, oh⟩)]) ∧
    GetMasterState c ctx =
      ((none, none, some e), [.newRequest "GET" "api/v1/configuration/connector/ha/master/state" .empty]) ∧
    SetMasterState c ctx op =
      ((none, none, some e), [.newRequest "POST" "api/v1/configuration/connector/ha/master/state"
        (.opBody op)]) ∧
    ResetMaster c ctx =
      ((none, some e), [.newRequest "DELETE" "api/v1/configuration/connector/ha/master/state" .empty]) ∧
    GetShadowConfiguration c ctx =
      ((none, none, some e), [.newShadowRequest "GET" "api/v1/configuration/connector/ha/shadow/config" .empty]) ∧
    SetShadowConfiguration c ctx mh mp oh ci td ct rt =
      ((none, none, some e), [.newShadowRequest "PUT" "api/v1/configuration/connector/ha/shadow/config"
        (.shadowConfig ⟨mh, mp, ci, td, oh, ct, rt, ShadowLinks.zero⟩)]) ∧
    GetShawodState c ctx d =
      ((none, none, some e), [.newShadowRequest "GET" "api/v1/configuration/connector/ha/shadow/state" .empty]) ∧
    ChangeShadowState c ctx op user pw =
      ((none, some e), [.newShadowRequest "POST" "api/v1/configuration/connector/ha/shadow/state"
        (.shadowStateBody op user pw)]) ∧
    ResetShadow c ctx =
      ((none, some e), [.newShadowRequest "DELETE" "api/v1/configuration/connector/ha/shadow/state" .empty]) := by
  refine ⟨?_, ?_, ?_, ?_, ?_, ?_, ?_, ?_, ?_, ?_, ?_, ?_, ?_, ?_, ?_, ?_, ?_⟩
  · simp [CreateBackup, hNR]
  · simp [RestoreBackup, hstat, hdir, hNU]
  · simp [GetCommonProperties, hNR]
  · simp [GetVersion, hNR]
  · simp [SetDescription, hNR]
  · simp [GetHASettings, hNR]
  · simp [SetHASettings, hNR]
  · simp [GetMasterConfiguration, hNR]
  · simp [SetMasterConfiguration, hNR]
  · simp [GetMasterState, hNR]
  · simp [SetMasterState, hNR]
  · simp [ResetMaster, hNR]
  · simp [GetShadowConfiguration, hNS]
  · simp [SetShadowConfiguration, hNS]
  · simp [GetShawodState, hNS]
  · simp [ChangeShadowState, hNS]
  · simp [ResetShadow, hNS]

theorem builder_failure_uniform_witness :
    plainFile.stat = .ok ⟨false, 10⟩ ∧
    (∀ m p bd, (allFailBuildClient "bad path").newRequestErr m p bd = some "bad path") ∧
    (∀ m p bd, (allFailBuildClient "bad path").newShadowRequestErr m p bd = some "bad path") ∧
    (∀ m p f sz mt, (allFailBuildClient "bad path").newUploadRequestErr m p f sz mt = some "bad path") ∧
    ResetMaster (allFailBuildClient "bad path") () =
      ((none, some "bad path"),
        [.newRequest "DELETE" "api/v1/configuration/connector/ha/master/state" .empty]) ∧
    RestoreBackup (fun _ => "application/zip") (allFailBuildClient "bad path") () "pw" plainFile =
      ((none, some "bad path"),
        [.newUploadRequest "PUT" "api/v1/configuration/backup" plainFile (10 : Int)
          ((fun _ => "application/zip") (filepathExt plainFile.name))]) ∧
    GetCommonProperties (allFailBuildClient "bad path") () =
      ((none, none, some "bad path"),
        [.newRequest "GET" "api/v1/configuration/connector" .empty]) :=
  ⟨rfl, fun _ _ _ => rfl, fun _ _ _ => rfl, fun _ _ _ _ _ => rfl,
    (builder_failure_uniform (fun _ => "application/zip") (allFailBuildClient "bad path") ()
      "bad path" "pw" "master" "d" "SWITCH" "u" "p" "mh" "mp" "oh" true 1 2 3 4
      plainFile ⟨false, 10⟩ rfl rfl (fun _ _ _ => rfl) (fun _ _ _ => rfl)
      (fun _ _ _ _ _ => rfl)).2.2.2.2.2.2.2.2.2.2.2.1,
    (builder_failure_uniform (fun _ => "application/zip") (allFailBuildClient "bad path") ()
      "bad path" "pw" "master" "d" "SWITCH" "u" "p" "mh" "mp" "oh" true 1 2 3 4
      plainFile ⟨false, 10⟩ rfl rfl (fun _ _ _ => rfl) (fun _ _ _ => rfl)
      (fun _ _ _ _ _ => rfl)).2.1,
    (builder_failure_uniform (fun _ => "application/zip") (allFailBuildClient "bad path") ()
      "bad path" "pw" "master" "d" "SWITCH" "u" "p" "mh" "mp" "oh" true 1 2 3 4
      plainFile ⟨false, 10⟩ rfl rfl (fun _ _ _ => rfl) (fun _ _ _ => rfl)
      (fun _ _ _ _ _ => rfl)).2.2.1⟩

end Scc
